import Mathlib

/-!
# Verification of the Pinterest Integrator catalog view controller

Shallow embedding of `src/app.js` (the client-side catalog state manager:
fetch, filter, search, render, bridge calls) and proofs about its behavior.

JavaScript strings are modelled as Lean `String`; the host builtins used by
the source (`String.prototype.trim`, `String.prototype.toLowerCase`,
`String.prototype.includes`, `Array.prototype.includes/filter/find/findIndex/
push`) are given explicit executable models below.
-/

namespace PinterestIntegrator

/-- Model of JavaScript `String.prototype.trim`: drop whitespace from both
ends of the string (`app.js` line 220 uses it only as a non-emptiness gate). -/
def jsTrim (s : String) : String :=
  ⟨((s.data.dropWhile Char.isWhitespace).reverse.dropWhile Char.isWhitespace).reverse⟩

/-- Model of JavaScript `String.prototype.toLowerCase`: lowercase every
character (the source only ever feeds it catalog strings and user input). -/
def jsToLower (s : String) : String :=
  ⟨s.data.map Char.toLower⟩

/-- Does `pat` occur at the head of `s`?  Helper for the substring test. -/
def leadMatch : List Char → List Char → Bool
  | [], _ => true
  | _ :: _, [] => false
  | p :: ps, c :: cs => p == c && leadMatch ps cs

/-- Model of JavaScript `String.prototype.includes`: contiguous substring
occurrence of `pat` in `s`. -/
def strIncludes (s pat : String) : Bool :=
  go pat.data s.data
where
  go (p : List Char) : List Char → Bool
    | [] => leadMatch p []
    | c :: cs => leadMatch p (c :: cs) || go p cs

/-- A catalog entry as described by the inbound data contract and consumed
by `app.js` (`id`, `title`, `description`, `image_url`, `source_url`,
`tags`, `board`). -/
structure Material where
  id : String
  title : String
  description : String
  image_url : String
  source_url : String
  tags : List String
  board : String
deriving DecidableEq, Repr

/-- The mutable view state object of `app.js` (lines 24-30). -/
structure State where
  materials : List Material
  filteredMaterials : List Material
  activeFilter : String
  searchQuery : String
  isLoading : Bool
deriving DecidableEq, Repr

/-- The initial value of `state` in `app.js` (lines 24-30). -/
def initialState : State :=
  { materials := [], filteredMaterials := [], activeFilter := "all",
    searchQuery := "", isLoading := true }

/-- The tag-filter step of `applyFilters` (`app.js` lines 213-217): when the
active filter is not `"all"`, keep the materials whose tag array contains the
filter string (exact equality, as JavaScript `Array.prototype.includes`). -/
def tagFiltered (materials : List Material) (activeFilter : String) : List Material :=
  if activeFilter != "all" then
    materials.filter (fun m => m.tags.contains activeFilter)
  else
    materials

/-- The search predicate of `applyFilters` (`app.js` lines 222-227): the
already-lowercased query occurs in the lowercased title, description, some
lowercased tag, or the lowercased board. -/
def matchesQuery (query : String) (m : Material) : Bool :=
  strIncludes (jsToLower m.title) query ||
  strIncludes (jsToLower m.description) query ||
  m.tags.any (fun tag => strIncludes (jsToLower tag) query) ||
  strIncludes (jsToLower m.board) query

/-- The full filter-then-search pipeline of `applyFilters`
(`app.js` lines 209-230): tag filter first; then, when the trimmed query is
non-empty, the search filter with the untrimmed lowercased query. -/
def computeFiltered (materials : List Material) (activeFilter searchQuery : String) :
    List Material :=
  let filtered := tagFiltered materials activeFilter
  if jsTrim searchQuery != "" then
    filtered.filter (matchesQuery (jsToLower searchQuery))
  else
    filtered

/-- `applyFilters` restricted to its state effect (`app.js` line 230):
store the recomputed pipeline result in `filteredMaterials`. -/
def applyFilters (s : State) : State :=
  { s with filteredMaterials := computeFiltered s.materials s.activeFilter s.searchQuery }

/-- The content of the `materialsGrid` display region, as written by
`renderMaterials` (`app.js` lines 90-109) and `showError` (lines 282-290).
`static` is whatever `index.html` put there before the first write. -/
inductive GridContent where
  | static
  | cards (ms : List Material)
  | emptyState
  | errorPlaceholder (msg : String)
deriving DecidableEq, Repr

/-- The user-visible document surface the controller writes to.
`filterButtons` lists the `data-filter` values of the `.filter-tag` buttons
in `filtersContainer`, in document order; `toasts` is the `toastContainer`
content as (message, kind) pairs; `loadingShown` says whether the loading
indicator is currently displayed.

Modelled from the spec: `index.html` is not under `src/`, so the DOM
structure around `loadingState` is taken from the spec, which places the
loading indicator in the display region ("a loading indicator is hidden and
an error placeholder is shown in the display region in its place"): hence
overwriting the display region's content replaces, and so hides, the
indicator. The spec's "permanent \x7ball\x7d control" fixes the initial
`filterButtons` to `["all"]`. -/
structure Dom where
  grid : GridContent
  loadingShown : Bool
  toasts : List (String × String)
  filterButtons : List String
deriving DecidableEq, Repr

/-- The document as `index.html` delivers it: static grid content (including
the loading indicator, shown), no toasts, only the permanent "all" filter
control. -/
def initialDom : Dom :=
  { grid := .static, loadingShown := true, toasts := [], filterButtons := ["all"] }

/-- `showLoading` (`app.js` lines 274-276): display the loading indicator. -/
def showLoading (d : Dom) : Dom :=
  { d with loadingShown := true }

/-- `hideLoading` (`app.js` lines 278-280): hide the loading indicator. -/
def hideLoading (d : Dom) : Dom :=
  { d with loadingShown := false }

/-- Assignment to `elements.materialsGrid.innerHTML`.  Modelled from the
spec: the loading indicator lives inside the display region, so replacing
the region's content also removes the indicator from display. -/
def setGrid (d : Dom) (c : GridContent) : Dom :=
  { d with grid := c, loadingShown := false }

/-- `showError` (`app.js` lines 282-290): put an error placeholder with the
given message into the display region. -/
def showError (d : Dom) (msg : String) : Dom :=
  setGrid d (.errorPlaceholder msg)

/-- `showToast` (`app.js` lines 292-307): append one independent transient
notification to the toast container. -/
def showToast (d : Dom) (msg kind : String) : Dom :=
  { d with toasts := d.toasts ++ [(msg, kind)] }

/-- `renderMaterials` (`app.js` lines 90-109): hide the loading indicator,
then write either the empty-state placeholder or one card per filtered
material into the display region. -/
def renderMaterials (s : State) (d : Dom) : Dom :=
  let d := hideLoading d
  if s.filteredMaterials.isEmpty then
    setGrid d .emptyState
  else
    setGrid d (.cards s.filteredMaterials)

/-- The fixed ordered allow-list of recognized top-level categories
(`app.js` line 175). -/
def mainCategories : List String := ["kayu", "batik", "batu", "bambu", "rotan"]

/-- The category derivation of `generateFilterTags` (`app.js` lines 164-176):
the allow-list restricted to the categories occurring among the tags of at
least one material (the `Set` membership test `allTags.has(cat)`). -/
def categoryTags (materials : List Material) : List String :=
  let allTags := materials.flatMap (fun m => m.tags)
  mainCategories.filter (fun cat => allTags.contains cat)

/-- `insertAdjacentHTML('afterend', ...)` on the button found by
`querySelector('[data-filter="all"]')` (`app.js` lines 184-185): splice the
new buttons immediately after the first "all" button. -/
def insertAfterAll (buttons new : List String) : List String :=
  match buttons with
  | [] => []
  | b :: rest => if b == "all" then b :: (new ++ rest) else b :: insertAfterAll rest new

/-- The document effect of `generateFilterTags` (`app.js` lines 164-193):
derive the surviving categories and insert one button per category after the
"all" button.  Nothing removes the buttons of a previous call. -/
def generateFilterTags (materials : List Material) (d : Dom) : Dom :=
  { d with filterButtons := insertAfterAll d.filterButtons (categoryTags materials) }

/-- The whole in-page world the controller can observe and mutate: the view
state, the document, the `console.error` diagnostics, and the serialized
materials handed to the SketchUp host capability. -/
structure App where
  state : State
  dom : Dom
  errlog : List String
  hostCalls : List Material
deriving DecidableEq, Repr

/-- The world at `DOMContentLoaded`, before `fetchLibrary` runs. -/
def initialApp : App :=
  { state := initialState, dom := initialDom, errlog := [], hostCalls := [] }

/-- Outcome of `fetch` + `response.json()` as observed by `fetchLibrary`:
either a parsed body (`materials` and `last_sync` both optional), or any of
the failure modes that reach the `catch` block (network failure, non-ok
status, malformed body). -/
inductive FetchResult where
  | ok (materials : Option (List Material)) (last_sync : Option String)
  | error
deriving DecidableEq, Repr

/-- The fixed generic load-failure message (`app.js` line 82). -/
def loadErrorMessage : String :=
  "Gagal memuat library. Pastikan file library.json tersedia."

/-- `fetchLibrary` (`app.js` lines 50-85), with the network outcome passed
explicitly.  On success: replace `materials` wholesale (missing `materials`
field defaults to `[]`), copy it into `filteredMaterials`, derive filter
tags, render, clear `isLoading`.  On failure: log a diagnostic, show the
error placeholder, clear `isLoading`; nothing else changes. -/
def fetchLibrary (result : FetchResult) (a : App) : App :=
  let s := { a.state with isLoading := true }
  let d := showLoading a.dom
  match result with
  | .error =>
      { a with
        state := { s with isLoading := false },
        dom := showError d loadErrorMessage,
        errlog := a.errlog ++ ["Error fetching library"] }
  | .ok materials _last_sync =>
      let ms := materials.getD []
      let s := { s with materials := ms, filteredMaterials := ms }
      let d := generateFilterTags ms d
      let d := renderMaterials s d
      { a with state := { s with isLoading := false }, dom := d }

/-- `applyFilters` together with the `renderMaterials` call it ends with
(`app.js` lines 209-232), as a world transition. -/
def applyFiltersOp (a : App) : App :=
  let s := applyFilters a.state
  { a with state := s, dom := renderMaterials s a.dom }

/-- `setActiveFilter` (`app.js` lines 198-207): store the clicked filter and
recompute (the button highlighting is not modelled). -/
def setActiveFilterOp (filter : String) (a : App) : App :=
  applyFiltersOp { a with state := { a.state with activeFilter := filter } }

/-- The debounced search-input commit (`app.js` lines 352-355): store the
raw input value and recompute. -/
def searchCommitOp (value : String) (a : App) : App :=
  applyFiltersOp { a with state := { a.state with searchQuery := value } }

/-- The Escape handler (`app.js` lines 358-364): clear the query and
recompute immediately. -/
def escapeClearOp (a : App) : App :=
  applyFiltersOp { a with state := { a.state with searchQuery := "" } }

/-- `applyMaterial` (`app.js` lines 237-257): look the id up in `materials`;
absent ids get an error toast; present ids go to the host capability when it
exists (`typeof sketchup !== 'undefined'`), else a success toast simulates
the application. -/
def applyMaterial (hostPresent : Bool) (materialId : String) (a : App) : App :=
  match a.state.materials.find? (fun m => m.id == materialId) with
  | none => { a with dom := showToast a.dom "Material tidak ditemukan" "error" }
  | some m =>
      if hostPresent then
        { a with hostCalls := a.hostCalls ++ [m] }
      else
        { a with
          dom := showToast a.dom ("✨ Material \"" ++ m.title ++ "\" siap diterapkan!")
            "success" }

/-- The upsert step of `updateMaterial` on a successfully parsed material
(`app.js` lines 398-406): replace in place at the first index whose id
matches, else push at the end; then recompute the filtered list. -/
def upsertMaterial (m : Material) (s : State) : State :=
  let s :=
    match s.materials.findIdx? (fun x => x.id == m.id) with
    | some i => { s with materials := s.materials.set i m }
    | none => { s with materials := s.materials ++ [m] }
  applyFilters s

/-!
## The JavaScript-level model of `updateMaterial`

`JSON.parse` can succeed on a payload that is not Material-shaped (the
string `"42"` parses to a number, `'\x7b"id":"x"\x7d'` to an object with no
`tags`).  The `try` block of `updateMaterial` (`app.js` lines 396-407) wraps
not only the parse but also `findIndex`, the array mutation and
`applyFilters` (which renders), so a `TypeError` thrown by a later property
access on such a value is caught only after the mutation has happened.  To
express this, the definitions below model the `state.materials` array and
the filter/render callbacks at the JavaScript level, where entries may be
arbitrary parsed values and property-method calls on non-Materials throw. -/

/-- An element of the `state.materials` array, or a value parsed from a
bridge payload, as JavaScript sees it: either an object of the Material
shape, or any other parsed JSON value — a number, boolean, string, array,
or object missing the Material fields — carrying only its `id` property
(`none` for `undefined`; non-string ids, which strict-compare unequal to
every string id, are not separately modelled, and `null`, whose property
reads themselves throw, is outside the model).  On a non-Material value the
reads `tags`, `title`, `description`, `board` yield `undefined`, so the
method calls on them (`includes`, `toLowerCase`, `slice`) throw
`TypeError`. -/
inductive JsEntry where
  | mat (m : Material)
  | foreign (id : Option String)
deriving DecidableEq, Repr

/-- The `id` property read by the `findIndex` callback
(`app.js` line 398). -/
def JsEntry.idProp : JsEntry → Option String
  | .mat m => some m.id
  | .foreign i => i

/-- The `state` object at the JavaScript level: the two material arrays may
hold non-Material entries. -/
structure JsState where
  materials : List JsEntry
  filteredMaterials : List JsEntry
  activeFilter : String
  searchQuery : String
  isLoading : Bool
deriving DecidableEq, Repr

/-- `GridContent` at the JavaScript level: cards may be built from
arbitrary entries. -/
inductive JsGridContent where
  | static
  | cards (ms : List JsEntry)
  | emptyState
  | errorPlaceholder (msg : String)
deriving DecidableEq, Repr

/-- The document at the JavaScript level (same fields as `Dom`). -/
structure JsDom where
  grid : JsGridContent
  loadingShown : Bool
  toasts : List (String × String)
  filterButtons : List String
deriving DecidableEq, Repr

/-- The world at the JavaScript level (same fields as `App`). -/
structure JsApp where
  state : JsState
  dom : JsDom
  errlog : List String
  hostCalls : List Material
deriving DecidableEq, Repr

/-- A well-formed state viewed at the JavaScript level. -/
def State.toJs (s : State) : JsState :=
  { materials := s.materials.map .mat,
    filteredMaterials := s.filteredMaterials.map .mat,
    activeFilter := s.activeFilter,
    searchQuery := s.searchQuery,
    isLoading := s.isLoading }

/-- Well-formed grid content viewed at the JavaScript level. -/
def GridContent.toJs : GridContent → JsGridContent
  | .static => .static
  | .cards ms => .cards (ms.map .mat)
  | .emptyState => .emptyState
  | .errorPlaceholder msg => .errorPlaceholder msg

/-- A well-formed document viewed at the JavaScript level. -/
def Dom.toJs (d : Dom) : JsDom :=
  { grid := d.grid.toJs, loadingShown := d.loadingShown,
    toasts := d.toasts, filterButtons := d.filterButtons }

/-- A well-formed world viewed at the JavaScript level. -/
def App.toJs (a : App) : JsApp :=
  { state := a.state.toJs, dom := a.dom.toJs,
    errlog := a.errlog, hostCalls := a.hostCalls }

/-- The tag-filter callback `material.tags.includes(activeFilter)`
(`app.js` line 215) at the JavaScript level: on a non-Material entry
`material.tags` is `undefined` and the `.includes` call throws. -/
def tagCallback (activeFilter : String) : JsEntry → Except Unit Bool
  | .mat m => .ok (m.tags.contains activeFilter)
  | .foreign _ => .error ()

/-- The search callback (`app.js` lines 222-227) at the JavaScript level:
on a non-Material entry `material.title` is `undefined` and the
`.toLowerCase()` call throws. -/
def searchCallback (query : String) : JsEntry → Except Unit Bool
  | .mat m => .ok (matchesQuery query m)
  | .foreign _ => .error ()

/-- `Array.prototype.filter` with a callback that can throw: callbacks run
left to right and the first throw aborts the whole call, so a throw yields
no result array at all. -/
def filterThrows (p : JsEntry → Except Unit Bool) : List JsEntry → Except Unit (List JsEntry)
  | [] => .ok []
  | e :: es =>
      match p e with
      | .error u => .error u
      | .ok b =>
          match filterThrows p es with
          | .error u => .error u
          | .ok rest => .ok (if b then e :: rest else rest)

/-- `createMaterialCard` (`app.js` lines 129-162) at the JavaScript level:
its first step `material.tags.slice(0, 3)` throws on a non-Material entry.
Only whether it throws matters here. -/
def cardThrows : JsEntry → Except Unit Unit
  | .mat _ => .ok ()
  | .foreign _ => .error ()

/-- The `map` over `createMaterialCard` (`app.js` lines 105-106): card
builders run left to right and the first throw aborts before the joined
markup exists. -/
def mapCards : List JsEntry → Except Unit Unit
  | [] => .ok ()
  | e :: es =>
      match cardThrows e with
      | .error u => .error u
      | .ok _ => mapCards es

/-- `renderMaterials` (`app.js` lines 90-127) at the JavaScript level: hide
the loading indicator first (line 91); an empty list writes the empty-state
placeholder; otherwise all cards are built (`map` + `join`) before
`innerHTML` is assigned, so a throw while building a card escapes with the
grid untouched.  The `error` value is the document as it stands when the
throw escapes. -/
def renderMaterialsJs (s : JsState) (d : JsDom) : Except JsDom JsDom :=
  let d := { d with loadingShown := false }
  if s.filteredMaterials.isEmpty then
    .ok { d with grid := .emptyState }
  else
    match mapCards s.filteredMaterials with
    | .ok _ => .ok { d with grid := .cards s.filteredMaterials }
    | .error _ => .error d

/-- `applyFilters` (`app.js` lines 209-232) at the JavaScript level: either
filter pass can throw on a non-Material entry, in which case neither
`state.filteredMaterials` nor the document has been touched; otherwise the
result is stored (line 230) and rendered, where card building can still
throw — after the store and after the loading indicator is hidden.  The
`error` value is the state and document as they stand when the throw
escapes. -/
def applyFiltersJs (s : JsState) (d : JsDom) :
    Except (JsState × JsDom) (JsState × JsDom) :=
  let step1 : Except Unit (List JsEntry) :=
    if s.activeFilter != "all" then
      filterThrows (tagCallback s.activeFilter) s.materials
    else
      .ok s.materials
  match step1 with
  | .error _ => .error (s, d)
  | .ok filtered1 =>
      let step2 : Except Unit (List JsEntry) :=
        if jsTrim s.searchQuery != "" then
          filterThrows (searchCallback (jsToLower s.searchQuery)) filtered1
        else
          .ok filtered1
      match step2 with
      | .error _ => .error (s, d)
      | .ok filtered =>
          let s2 := { s with filteredMaterials := filtered }
          match renderMaterialsJs s2 d with
          | .ok d2 => .ok (s2, d2)
          | .error d2 => .error (s2, d2)

/-- The array mutation of `updateMaterial` (`app.js` lines 398-404):
replace at the first index whose `id` property strictly equals the
payload's, else push at the end.  `findIndex` compares `id` properties, so
an `undefined` payload id matches an entry whose id is `undefined`. -/
def jsUpserted (v : JsEntry) (ms : List JsEntry) : List JsEntry :=
  match ms.findIdx? (fun e => e.idProp == v.idProp) with
  | some k => ms.set k v
  | none => ms ++ [v]

/-- The outcome of the `JSON.parse` host builtin on the bridge payload:
`throws` models a payload that is not valid JSON; `value v` a payload that
parses to `v` — a Material-shaped object, or any other value
(`.foreign i`). -/
inductive ParseOutcome where
  | throws
  | value (v : JsEntry)
deriving DecidableEq, Repr

/-- `updateMaterial` (`app.js` lines 395-410) at the JavaScript level.  The
`catch` wraps the whole `try` body — parse, `findIndex`, mutation,
`applyFilters` and the rendering it ends with — logging one diagnostic and
rethrowing nothing, so a mutation performed before a late `TypeError`
survives the swallowed exception. -/
def updateMaterial (parsed : ParseOutcome) (a : JsApp) : JsApp :=
  match parsed with
  | .throws => { a with errlog := a.errlog ++ ["Error updating material"] }
  | .value v =>
      let s := { a.state with materials := jsUpserted v a.state.materials }
      match applyFiltersJs s a.dom with
      | .ok (s2, d2) => { a with state := s2, dom := d2 }
      | .error (s2, d2) =>
          { a with state := s2, dom := d2,
                   errlog := a.errlog ++ ["Error updating material"] }

/-! ## Concrete catalog entries used as test inputs -/

/-- A material tagged with the recognized category `"kayu"`. -/
def sampleKayu : Material :=
  ⟨"a", "Kayu Jati", "", "", "", ["kayu"], "Board1"⟩

/-- A material tagged with the recognized category `"batu"`. -/
def sampleBatu : Material :=
  ⟨"b", "Batu Alam", "", "", "", ["batu"], "Board2"⟩

/-- The catalog body holding both sample materials. -/
def sampleBody : FetchResult := .ok (some [sampleKayu, sampleBatu]) none

/-- A well-formed world as it stands after loading the sample catalog and
selecting the `"kayu"` filter, viewed at the JavaScript level: the input at
which the bridge upsert's missing atomicity is exhibited. -/
def sampleJsApp : JsApp :=
  { state := { materials := [.mat sampleKayu, .mat sampleBatu],
               filteredMaterials := [.mat sampleKayu],
               activeFilter := "kayu", searchQuery := "", isLoading := false },
    dom := { grid := .cards [.mat sampleKayu], loadingShown := false,
             toasts := [], filterButtons := ["all", "kayu", "batu"] },
    errlog := [], hostCalls := [] }

/-! ## Claims -/

/-- Claim C2: for every materials list and every active filter other than
`"all"`, the tag-filter step (with empty search query) returns exactly the
`List.filter` of the list by exact tag membership — hence a subsequence of
the original list in original order — and an element survives exactly when
it was present and its tag sequence contains the filter. -/
theorem tagFilter_exact_subsequence (M : List Material) (f : String) (h : f ≠ "all") :
    computeFiltered M f "" = M.filter (fun m => m.tags.contains f) ∧
    (computeFiltered M f "").Sublist M ∧
    ∀ m : Material, m ∈ computeFiltered M f "" ↔ m ∈ M ∧ m.tags.contains f = true := by
  have hf : (f != "all") = true := bne_iff_ne.mpr h
  have heq : computeFiltered M f "" = M.filter (fun m => m.tags.contains f) := by
    simp [computeFiltered, tagFiltered, jsTrim, hf]
  refine ⟨heq, ?_, ?_⟩
  · rw [heq]; exact List.filter_sublist M
  · intro m; rw [heq]; simp [List.mem_filter]

/-- Witness for C2 at a concrete input: filtering `[sampleKayu, sampleBatu]`
by `"kayu"` keeps exactly the `"kayu"`-tagged entry. -/
theorem tagFilter_exact_subsequence_witness :
    computeFiltered [sampleKayu, sampleBatu] "kayu" ""
        = [sampleKayu, sampleBatu].filter (fun m => m.tags.contains "kayu") ∧
    (computeFiltered [sampleKayu, sampleBatu] "kayu" "").Sublist [sampleKayu, sampleBatu] ∧
    ∀ m : Material, m ∈ computeFiltered [sampleKayu, sampleBatu] "kayu" ""
        ↔ m ∈ [sampleKayu, sampleBatu] ∧ m.tags.contains "kayu" = true :=
  tagFilter_exact_subsequence [sampleKayu, sampleBatu] "kayu" (by decide)

/-- Claim C3: for every query whose trim is non-empty, the pipeline result
is exactly the tag-filter output filtered by the search predicate (sequential
application, filter step first), and an element is kept exactly when it
passes both the tag filter and the case-insensitive substring match against
title, description, some tag, or board — an intersection, never a union. -/
theorem search_filters_tag_output (M : List Material) (f q : String) (h : jsTrim q ≠ "") :
    computeFiltered M f q = (tagFiltered M f).filter (matchesQuery (jsToLower q)) ∧
    ∀ m : Material, m ∈ computeFiltered M f q
        ↔ m ∈ tagFiltered M f ∧ matchesQuery (jsToLower q) m = true := by
  have hq : (jsTrim q != "") = true := bne_iff_ne.mpr h
  have heq : computeFiltered M f q = (tagFiltered M f).filter (matchesQuery (jsToLower q)) := by
    simp [computeFiltered, hq]
  refine ⟨heq, fun m => ?_⟩
  rw [heq]; simp [List.mem_filter]

/-- Witness for C3 at a concrete input: searching `"batu"` under filter
`"all"` keeps exactly the entry the predicate accepts. -/
theorem search_filters_tag_output_witness :
    computeFiltered [sampleKayu, sampleBatu] "all" "batu"
        = (tagFiltered [sampleKayu, sampleBatu] "all").filter (matchesQuery (jsToLower "batu")) ∧
    ∀ m : Material, m ∈ computeFiltered [sampleKayu, sampleBatu] "all" "batu"
        ↔ m ∈ tagFiltered [sampleKayu, sampleBatu] "all"
            ∧ matchesQuery (jsToLower "batu") m = true :=
  search_filters_tag_output [sampleKayu, sampleBatu] "all" "batu" (by decide)

/-- Claim C4: upsert with an id already present replaces the entry in place
at its original position (`List.set` at the first matching index), keeping
the length; with an absent id it appends, growing the length by exactly 1;
in both cases `filteredMaterials` is recomputed through the pipeline from
the new materials and the current filter and query. -/
theorem upsertMaterial_replace_or_append (s : State) (m : Material) :
    (match s.materials.findIdx? (fun x => x.id == m.id) with
     | some i =>
        (upsertMaterial m s).materials = s.materials.set i m ∧
        (upsertMaterial m s).materials.length = s.materials.length
     | none =>
        (upsertMaterial m s).materials = s.materials ++ [m] ∧
        (upsertMaterial m s).materials.length = s.materials.length + 1) ∧
    (upsertMaterial m s).filteredMaterials =
      computeFiltered (upsertMaterial m s).materials s.activeFilter s.searchQuery := by
  cases h : s.materials.findIdx? (fun x => x.id == m.id) <;>
    simp [upsertMaterial, applyFilters, h]

/-! ### Helper lemmas for the bridge-upsert failure analysis -/

/-- `findIdx?` only returns indices inside the list. -/
theorem findIdx?_some_lt {α} {p : α → Bool} {l : List α} {k : Nat}
    (h : l.findIdx? p = some k) : k < l.length :=
  (List.findIdx?_eq_some_iff_findIdx_eq.mp h).1

/-- The value written by an in-bounds `List.set` is a member of the
result. -/
theorem mem_set_self {α} : ∀ (l : List α) (k : Nat) (e : α), k < l.length → e ∈ l.set k e
  | [], _, _, h => absurd h (by simp)
  | _ :: _, 0, _, _ => by simp
  | x :: xs, k + 1, e, h =>
      List.mem_cons_of_mem x (mem_set_self xs k e (by simpa using h))

/-- The upserted array always holds the upserted value (replaced in or
pushed). -/
theorem mem_jsUpserted (v : JsEntry) (ms : List JsEntry) : v ∈ jsUpserted v ms := by
  unfold jsUpserted
  cases h : ms.findIdx? (fun e => e.idProp == v.idProp) with
  | none => simp
  | some k => exact mem_set_self ms k v (findIdx?_some_lt h)

/-- A filter pass throws whenever some element makes its callback throw. -/
theorem filterThrows_eq_error {p : JsEntry → Except Unit Bool} {l : List JsEntry}
    {x : JsEntry} (hx : x ∈ l) (hpx : p x = .error ()) :
    filterThrows p l = .error () := by
  induction l with
  | nil => cases hx
  | cons e es ih =>
      rcases List.mem_cons.mp hx with rfl | hmem
      · simp [filterThrows, hpx]
      · cases hpe : p e with
        | error u => cases u; simp [filterThrows, hpe]
        | ok b => simp [filterThrows, hpe, ih hmem]

/-- Card building throws whenever some entry is not Material-shaped. -/
theorem mapCards_eq_error {l : List JsEntry} {x : JsEntry}
    (hx : x ∈ l) (hcx : cardThrows x = .error ()) : mapCards l = .error () := by
  induction l with
  | nil => cases hx
  | cons e es ih =>
      rcases List.mem_cons.mp hx with rfl | hmem
      · simp [mapCards, hcx]
      · cases hce : cardThrows e with
        | error u => cases u; simp [mapCards, hce]
        | ok u => simp [mapCards, hce, ih hmem]

/-- On an array of well-formed materials a filter pass never throws and
agrees with the corresponding pure predicate. -/
theorem filterThrows_map_mat (q : Material → Bool) (p : JsEntry → Except Unit Bool)
    (hp : ∀ m, p (.mat m) = .ok (q m)) (ms : List Material) :
    filterThrows p (ms.map .mat) = .ok ((ms.filter q).map .mat) := by
  induction ms with
  | nil => simp [filterThrows]
  | cons m ms ih =>
      simp only [List.map_cons, filterThrows, hp m, ih, List.filter_cons]
      by_cases h : q m <;> simp [h]

/-- On an array of well-formed materials card building never throws. -/
theorem mapCards_map_mat (ms : List Material) : mapCards (ms.map .mat) = .ok () := by
  induction ms with
  | nil => simp [mapCards]
  | cons m ms ih => simpa [mapCards, cardThrows] using ih

/-- On a well-formed state the JavaScript-level rendering never throws and
agrees with the abstract `renderMaterials`. -/
theorem renderMaterialsJs_map (s : State) (d : Dom) :
    renderMaterialsJs s.toJs d.toJs = .ok (renderMaterials s d).toJs := by
  unfold renderMaterialsJs renderMaterials
  by_cases h : s.filteredMaterials = [] <;>
    simp [State.toJs, Dom.toJs, GridContent.toJs, hideLoading, setGrid, h,
      mapCards_map_mat, List.isEmpty_iff]

/-- On a well-formed state the JavaScript-level `applyFilters` never throws
and agrees with the abstract `applyFilters` followed by rendering. -/
theorem applyFiltersJs_map (s : State) (d : Dom) :
    applyFiltersJs s.toJs d.toJs
      = .ok ((applyFilters s).toJs, (renderMaterials (applyFilters s) d).toJs) := by
  have hTag : ∀ f, filterThrows (tagCallback f) (s.materials.map .mat)
      = .ok ((s.materials.filter (fun m => m.tags.contains f)).map .mat) :=
    fun f => filterThrows_map_mat _ _ (fun _ => rfl) _
  have hSearch : ∀ q, ∀ ms : List Material, filterThrows (searchCallback q) (ms.map .mat)
      = .ok ((ms.filter (matchesQuery q)).map .mat) :=
    fun q ms => filterThrows_map_mat _ _ (fun _ => rfl) _
  have hRender := renderMaterialsJs_map (applyFilters s) d
  unfold applyFiltersJs
  by_cases h1 : (s.activeFilter != "all") = true <;>
    by_cases h2 : (jsTrim s.searchQuery != "") = true <;>
      simp_all [State.toJs, applyFilters, computeFiltered, tagFiltered,
        renderMaterialsJs_map]

/-- Claim C5 (amended): for both failure paths of the bridge upsert the
exception is swallowed with exactly one logged diagnostic, no toast, no
error placeholder, no host call, and `activeFilter`/`searchQuery`
untouched; a payload that fails JSON parsing additionally leaves the whole
state and document unchanged; but a payload that parses to a non-Material
value is upserted into `materials` before the `TypeError` it later provokes
is swallowed — and when the active filter is `"all"` and the trimmed query
is empty it reaches `filteredMaterials` too — so those are not left
unchanged. -/
theorem updateMaterial_failure_behavior (a : JsApp) (i : Option String) :
    ((updateMaterial .throws a).state = a.state ∧
     (updateMaterial .throws a).dom = a.dom ∧
     (updateMaterial .throws a).hostCalls = a.hostCalls ∧
     (updateMaterial .throws a).errlog = a.errlog ++ ["Error updating material"]) ∧
    ((updateMaterial (.value (.foreign i)) a).errlog
        = a.errlog ++ ["Error updating material"] ∧
     (updateMaterial (.value (.foreign i)) a).dom.toasts = a.dom.toasts ∧
     (updateMaterial (.value (.foreign i)) a).dom.grid = a.dom.grid ∧
     (updateMaterial (.value (.foreign i)) a).dom.filterButtons = a.dom.filterButtons ∧
     (updateMaterial (.value (.foreign i)) a).hostCalls = a.hostCalls ∧
     (updateMaterial (.value (.foreign i)) a).state.activeFilter = a.state.activeFilter ∧
     (updateMaterial (.value (.foreign i)) a).state.searchQuery = a.state.searchQuery ∧
     (updateMaterial (.value (.foreign i)) a).state.materials
        = jsUpserted (.foreign i) a.state.materials ∧
     (updateMaterial (.value (.foreign i)) a).state.filteredMaterials
        = (if a.state.activeFilter == "all" && jsTrim a.state.searchQuery == "" then
             jsUpserted (.foreign i) a.state.materials
           else
             a.state.filteredMaterials)) := by
  refine ⟨by simp [updateMaterial], ?_⟩
  have hMem := mem_jsUpserted (.foreign i) a.state.materials
  have hTag : filterThrows (tagCallback a.state.activeFilter)
      (jsUpserted (.foreign i) a.state.materials) = .error () :=
    filterThrows_eq_error hMem rfl
  have hSearch : filterThrows (searchCallback (jsToLower a.state.searchQuery))
      (jsUpserted (.foreign i) a.state.materials) = .error () :=
    filterThrows_eq_error hMem rfl
  have hCards : mapCards (jsUpserted (.foreign i) a.state.materials) = .error () :=
    mapCards_eq_error hMem rfl
  have hNE : (jsUpserted (.foreign i) a.state.materials).isEmpty = false := by
    simp [List.isEmpty_iff]
    exact List.ne_nil_of_mem hMem
  cases hb1 : a.state.activeFilter == "all" with
  | false =>
      have h1 : ¬ a.state.activeFilter = "all" := by simpa using hb1
      simp [updateMaterial, applyFiltersJs, hb1, h1, hTag]
  | true =>
      have h1 : a.state.activeFilter = "all" := by simpa using hb1
      cases hb2 : jsTrim a.state.searchQuery == "" with
      | false =>
          have h2 : ¬ jsTrim a.state.searchQuery = "" := by simpa using hb2
          simp [updateMaterial, applyFiltersJs, hb1, hb2, h1, h2, hSearch]
      | true =>
          have h2 : jsTrim a.state.searchQuery = "" := by simpa using hb2
          simp [updateMaterial, applyFiltersJs, renderMaterialsJs, hb1, hb2, h1, h2,
            hNE, hCards]

/-- Counterexample to claim C5 as stated: over the sample world (filter
`"kayu"` active) the payload string `"42"` parses — to the number 42, a
non-Material value with an `undefined` id — so processing fails only after
the mutation: the swallowed `TypeError` leaves its diagnostic and no toast,
yet `state.materials` has changed, the parsed number now sitting at its
end.  The failure is not atomic. -/
theorem updateMaterial_not_atomic :
    (updateMaterial (.value (.foreign none)) sampleJsApp).errlog
        = sampleJsApp.errlog ++ ["Error updating material"] ∧
    (updateMaterial (.value (.foreign none)) sampleJsApp).dom.toasts
        = sampleJsApp.dom.toasts ∧
    (updateMaterial (.value (.foreign none)) sampleJsApp).state.materials
        = [.mat sampleKayu, .mat sampleBatu, .foreign none] ∧
    (updateMaterial (.value (.foreign none)) sampleJsApp).state.materials
        ≠ sampleJsApp.state.materials := by
  decide

/-- The JavaScript-level `updateMaterial` is conservative over the
well-formed world: on a payload parsing to a Material it performs exactly
the abstract upsert-and-render (the behavior claim C4 is about). -/
theorem updateMaterial_wellFormed_agrees (m : Material) (a : App) :
    updateMaterial (.value (.mat m)) a.toJs
      = App.toJs { a with state := upsertMaterial m a.state,
                          dom := renderMaterials (upsertMaterial m a.state) a.dom } := by
  have hfind : (a.state.materials.map JsEntry.mat).findIdx?
        (fun e => JsEntry.idProp e == JsEntry.idProp (.mat m))
      = a.state.materials.findIdx? (fun x : Material => x.id == m.id) := by
    rw [List.findIdx?_map]
    rfl
  cases hidx : a.state.materials.findIdx? (fun x : Material => x.id == m.id) with
  | none =>
      have hjs : jsUpserted (.mat m) (a.state.materials.map JsEntry.mat)
          = (a.state.materials ++ [m]).map JsEntry.mat := by
        unfold jsUpserted
        rw [hfind, hidx]
        simp
      have hup : upsertMaterial m a.state
          = applyFilters { a.state with materials := a.state.materials ++ [m] } := by
        unfold upsertMaterial
        rw [hidx]
      have happ := applyFiltersJs_map { a.state with materials := a.state.materials ++ [m] } a.dom
      simp only [updateMaterial]
      rw [show (a.toJs).state.materials = a.state.materials.map JsEntry.mat from rfl, hjs]
      rw [show ({ (a.toJs).state with
              materials := (a.state.materials ++ [m]).map JsEntry.mat } : JsState)
            = ({ a.state with materials := a.state.materials ++ [m] } : State).toJs from rfl]
      rw [show (a.toJs).dom = a.dom.toJs from rfl]
      rw [happ]
      simp [App.toJs, hup]
  | some k =>
      have hjs : jsUpserted (.mat m) (a.state.materials.map JsEntry.mat)
          = (a.state.materials.set k m).map JsEntry.mat := by
        unfold jsUpserted
        rw [hfind, hidx]
        simp [List.map_set]
      have hup : upsertMaterial m a.state
          = applyFilters { a.state with materials := a.state.materials.set k m } := by
        unfold upsertMaterial
        rw [hidx]
      have happ := applyFiltersJs_map { a.state with materials := a.state.materials.set k m } a.dom
      simp only [updateMaterial]
      rw [show (a.toJs).state.materials = a.state.materials.map JsEntry.mat from rfl, hjs]
      rw [show ({ (a.toJs).state with
              materials := (a.state.materials.set k m).map JsEntry.mat } : JsState)
            = ({ a.state with materials := a.state.materials.set k m } : State).toJs from rfl]
      rw [show (a.toJs).dom = a.dom.toJs from rfl]
      rw [happ]
      simp [App.toJs, hup]

/-- Claim C6: every failed load — whatever state it starts from, so in
particular a refresh after a successful load — leaves `materials` exactly
as it was (no clearing, no partial merge) and also leaves `activeFilter`
and `searchQuery` unchanged. -/
theorem failed_load_preserves_state (a : App) :
    (fetchLibrary .error a).state.materials = a.state.materials ∧
    (fetchLibrary .error a).state.activeFilter = a.state.activeFilter ∧
    (fetchLibrary .error a).state.searchQuery = a.state.searchQuery := by
  simp [fetchLibrary]

/-- Claim C7: on every load failure the display region holds the error
placeholder with the fixed generic message, the loading indicator is no
longer displayed, `isLoading` is false, and no toast is added (the
placeholder is the single user-facing report). -/
theorem failed_load_error_placeholder (a : App) :
    (fetchLibrary .error a).dom.grid = .errorPlaceholder loadErrorMessage ∧
    (fetchLibrary .error a).dom.loadingShown = false ∧
    (fetchLibrary .error a).state.isLoading = false ∧
    (fetchLibrary .error a).dom.toasts = a.dom.toasts := by
  simp [fetchLibrary, showError, setGrid, showLoading]

/-- Claim C8: the apply action never changes the view state; an absent id
yields exactly one error toast (and no host call, no grid change); a present
id with no host capability yields exactly one success toast naming the
material (and no host call, no grid change). -/
theorem applyMaterial_lookup_behavior (a : App) (hostPresent : Bool) (materialId : String) :
    (applyMaterial hostPresent materialId a).state = a.state ∧
    (match a.state.materials.find? (fun m => m.id == materialId) with
     | none =>
        (applyMaterial hostPresent materialId a).dom.toasts
            = a.dom.toasts ++ [("Material tidak ditemukan", "error")] ∧
        (applyMaterial hostPresent materialId a).hostCalls = a.hostCalls ∧
        (applyMaterial hostPresent materialId a).dom.grid = a.dom.grid
     | some m =>
        (applyMaterial false materialId a).dom.toasts
            = a.dom.toasts
                ++ [("✨ Material \"" ++ m.title ++ "\" siap diterapkan!", "success")] ∧
        (applyMaterial false materialId a).hostCalls = a.hostCalls ∧
        (applyMaterial false materialId a).dom.grid = a.dom.grid) := by
  refine ⟨?_, ?_⟩
  · cases h : a.state.materials.find? (fun m => m.id == materialId) <;>
      cases hostPresent <;> simp [applyMaterial, h, showToast]
  · cases h : a.state.materials.find? (fun m => m.id == materialId) <;>
      simp [applyMaterial, h, showToast]

/-- Claim C1: filter selection does re-establish
`filteredMaterials = computeFiltered materials activeFilter searchQuery`,
but a successful load does not recompute the pipeline: after loading the
sample catalog, selecting filter `"kayu"` (invariant holds, result
`[sampleKayu]`), and then refreshing successfully, the stored
`filteredMaterials` is the whole unfiltered materials list while the
pipeline recomputed from the current (materials, activeFilter, searchQuery)
yields only `[sampleKayu]` — the invariant claimed by the specification is
violated by `fetchLibrary`, which assigns a plain copy of `materials`. -/
theorem fetchLibrary_skips_filter_recompute :
    (setActiveFilterOp "kayu" (fetchLibrary sampleBody initialApp)).state.filteredMaterials
        = computeFiltered
            (setActiveFilterOp "kayu" (fetchLibrary sampleBody initialApp)).state.materials
            (setActiveFilterOp "kayu" (fetchLibrary sampleBody initialApp)).state.activeFilter
            (setActiveFilterOp "kayu" (fetchLibrary sampleBody initialApp)).state.searchQuery ∧
    (fetchLibrary sampleBody (setActiveFilterOp "kayu"
        (fetchLibrary sampleBody initialApp))).state.activeFilter = "kayu" ∧
    (fetchLibrary sampleBody (setActiveFilterOp "kayu"
        (fetchLibrary sampleBody initialApp))).state.filteredMaterials
        = [sampleKayu, sampleBatu] ∧
    computeFiltered [sampleKayu, sampleBatu] "kayu" "" = [sampleKayu] ∧
    (fetchLibrary sampleBody (setActiveFilterOp "kayu"
        (fetchLibrary sampleBody initialApp))).state.filteredMaterials
      ≠ computeFiltered
          (fetchLibrary sampleBody (setActiveFilterOp "kayu"
              (fetchLibrary sampleBody initialApp))).state.materials
          (fetchLibrary sampleBody (setActiveFilterOp "kayu"
              (fetchLibrary sampleBody initialApp))).state.activeFilter
          (fetchLibrary sampleBody (setActiveFilterOp "kayu"
              (fetchLibrary sampleBody initialApp))).state.searchQuery := by
  decide

/-- Claim C9: the category derivation itself is correct (allow-list order,
restricted to occurring tags) and the first load inserts exactly one button
per surviving category after the permanent `"all"` control — but a second
successful load inserts them again without removing the old ones, so after
a refresh the container holds duplicate controls, contradicting the
one-control-per-category rendering the specification requires. -/
theorem refresh_accumulates_filter_buttons :
    categoryTags [sampleKayu] = ["kayu"] ∧
    (fetchLibrary (.ok (some [sampleKayu]) none) initialApp).dom.filterButtons
        = ["all", "kayu"] ∧
    (fetchLibrary (.ok (some [sampleKayu]) none)
        (fetchLibrary (.ok (some [sampleKayu]) none) initialApp)).dom.filterButtons
        = ["all", "kayu", "kayu"] ∧
    ((fetchLibrary (.ok (some [sampleKayu]) none)
        (fetchLibrary (.ok (some [sampleKayu]) none) initialApp)).dom.filterButtons.count
        "kayu") = 2 := by
  decide

/-- Claim C10: the search step is gated on the trimmed query being non-empty
but matches with the untrimmed lowercased query: both `"kayu"` and
`" kayu"` trim to the non-empty `"kayu"`, yet over the sample catalog the
first query keeps the `"kayu"` material and the second keeps nothing,
because the leading space is part of the matched substring. -/
theorem search_uses_untrimmed_query :
    jsTrim "kayu" = "kayu" ∧
    jsTrim " kayu" = "kayu" ∧
    jsTrim " kayu" ≠ "" ∧
    computeFiltered [sampleKayu, sampleBatu] "all" "kayu" = [sampleKayu] ∧
    computeFiltered [sampleKayu, sampleBatu] "all" " kayu" = [] ∧
    computeFiltered [sampleKayu, sampleBatu] "all" "kayu"
      ≠ computeFiltered [sampleKayu, sampleBatu] "all" " kayu" := by
  decide

end PinterestIntegrator
